import Mathlib

/-!
Shallow embedding of the TCP protocol engine of `internal/acServer/tcp.go`
and of the dependency resolver of `resolver.go`, for verifying the
natural-language specification of the repository against the code.

Bytes are modelled as `Nat`, Go errors as a small inductive capturing the
only distinction the code makes (`*net.OpError` with its `Temporary()`
flag, versus every other error value), and the read side of a `net.Conn`
as a list of read events: chunks of delivered bytes interleaved with
errors reported by `Read`.
-/

namespace AcServer

/-- Model of a Go `error` value as classified by the read loop in
`tcp.go`: the loop only inspects whether the error is a `*net.OpError`
and, if so, whether `Temporary()` holds.  `other` stands for every
non-`*net.OpError` error (`io.EOF`, `io.ErrUnexpectedEOF`, handler
business errors, ...). -/
inductive GoErr where
  | opError (temporary : Bool)
  | other
deriving DecidableEq, Repr

/-- The test `e, ok := err.(*net.OpError); ok && !e.Temporary()` from the
read loop in `TCP.Listen` (tcp.go lines 134 and 146). -/
def isPermanentOp : GoErr → Bool
  | .opError temp => !temp
  | .other => false

/-- One event on the read side of a connection: either a delivery of
bytes (a single `Read` call returns at most one chunk, possibly
truncated to the buffer size, with the remainder redelivered by the next
`Read` — Go permits short reads), or an error returned by `Read`. -/
inductive ReadEvent where
  | chunk (bytes : List Nat)
  | rfail (e : GoErr)
deriving DecidableEq, Repr

/-- The read side of a `net.Conn`: the sequence of future read events.
An empty list means any further read would block forever; modelled
streams of interest always end in an `rfail` event. -/
abbrev ConnStream := List ReadEvent

/-- Push undelivered bytes back to the front of the stream, to be
returned by the next `Read` call. -/
def pushBack (bytes : List Nat) (s : ConnStream) : ConnStream :=
  if bytes = [] then s else ReadEvent.chunk bytes :: s

/-- Model of a single Go `conn.Read(buf)` with `len(buf) = bufLen`:
returns at most `bufLen` bytes from the next delivery (a short read when
less is available), or the next error; `none` means the call blocks
forever.  A zero-length buffer returns immediately with no data. -/
def connRead (s : ConnStream) (bufLen : Nat) :
    Option ((List Nat ⊕ GoErr) × ConnStream) :=
  if bufLen = 0 then some (Sum.inl [], s)
  else
    match s with
    | [] => none
    | ReadEvent.chunk bs :: rest =>
        some (Sum.inl (bs.take bufLen), pushBack (bs.drop bufLen) rest)
    | ReadEvent.rfail e :: rest => some (Sum.inr e, rest)

/-- Model of `io.ReadFull` over the stream, as performed by
`binary.Read(conn, binary.LittleEndian, &messageLength)` on a 2-byte
value (tcp.go line 133): keeps reading until `needed` bytes have been
gathered, and returns the underlying error if `Read` reports one first.
`none` means the call blocks forever. -/
def readFullLoop : ConnStream → Nat → List Nat →
    Option ((List Nat ⊕ GoErr) × ConnStream)
  | _, 0, acc => some (Sum.inl acc, [])
  | [], _ + 1, _ => none
  | ReadEvent.rfail e :: rest, _ + 1, _ => some (Sum.inr e, rest)
  | ReadEvent.chunk bs :: rest, needed + 1, acc =>
      if bs.length ≥ needed + 1 then
        some (Sum.inl (acc ++ bs.take (needed + 1)),
              pushBack (bs.drop (needed + 1)) rest)
      else
        readFullLoop rest (needed + 1 - bs.length) (acc ++ bs)

/-- `io.ReadFull` keeping the stream intact when `needed = 0`. -/
def readFull (s : ConnStream) (needed : Nat) :
    Option ((List Nat ⊕ GoErr) × ConnStream) :=
  if needed = 0 then some (Sum.inl [], s) else readFullLoop s needed []

/-- Little-endian decoding of a 2-byte length header, as done by
`binary.Read` with `binary.LittleEndian` into a `uint16`. -/
def le16 (bs : List Nat) : Nat :=
  bs.headD 0 + 256 * (bs.tail.headD 0)

/-- Little-endian encoding of a `uint16` value. -/
def le16enc (n : Nat) : List Nat :=
  [n % 256, n / 256 % 256]

/-- A TCP message handler, the capability `{MessageType, OnMessage}`:
`msgType` is the handler's declared message type (`MessageType()`), and
`onMessage` models `OnMessage(conn, p)` as the error value it returns on
the raw bytes of the received frame (the state effects of the concrete
handlers live outside tcp.go and are irrelevant to the claims here). -/
structure TCPMessageHandler where
  msgType : Nat
  onMessage : List Nat → Option GoErr

/-- The dispatcher `t.messageHandlers`: the one-time-built map from
message type to handler, modelled as a lookup function. -/
abbrev Handlers := Nat → Option TCPMessageHandler

/-- Observable events of a read loop run, in program order: handler
invocations, log lines, the hex dump of an unknown frame, and the
cleanup block of the `closer` branch. -/
inductive TraceEvent where
  /-- `messageHandler.OnMessage(conn, p)` invoked for a frame whose raw
  bytes (as read) are `bytes` and whose leading type byte is `msgType`. -/
  | dispatch (msgType : Nat) (bytes : List Nat)
  /-- `t.logger.WithError(err).Errorf("Message Handler: 0x%x returned error", ...)`
  with the handler's declared message type. -/
  | handlerErrLog (declaredType : Nat) (e : GoErr)
  /-- `t.logger.Errorf("Unknown TCP message type: 0x%x (len: %d)", messageType, n)`. -/
  | unknownTypeLog (msgType : Nat) (n : Nat)
  /-- `fmt.Printf("%x\n", buf[:n])`: hex dump of the raw bytes read. -/
  | hexDumpOut (bytes : List Nat)
  /-- `couldn't handle tcp connection (read message length)` log line. -/
  | readLenErrLog (e : GoErr)
  /-- `couldn't handle tcp connection (read message)` log line. -/
  | readMsgErrLog (e : GoErr)
  /-- The cleanup block of the `case <-conn.closer` branch ran. -/
  | cleanupRan
deriving DecidableEq, Repr

/-- Result of `TCP.handleConnection(conn, messageLength)` (tcp.go lines
159–191): the trace events it emits, the error it returns, and the
remaining stream.  `none` models a read that blocks forever.

The payload read is the single call `n, err := conn.Read(buf)` with
`buf` of size `messageLength` — NOT `io.ReadFull` — so a short delivery
yields `n < messageLength` bytes with no error and the frame is decoded
from `buf[:n]`.  The leading message type byte is then read off the
packet (`p.Read(&messageType)`; on an empty buffer the decode leaves the
zero value, per the spec a short buffer is a reported decode failure and
never undefined behavior). -/
def handleConnection (hs : Handlers) (s : ConnStream) (messageLength : Nat) :
    Option (List TraceEvent × Option GoErr × ConnStream) :=
  match connRead s messageLength with
  | none => none
  | some (Sum.inr e, s') => some ([], some e, s')
  | some (Sum.inl bs, s') =>
      let messageType := bs.headD 0
      match hs messageType with
      | some h =>
          match h.onMessage bs with
          | some e =>
              some ([TraceEvent.dispatch messageType bs,
                     TraceEvent.handlerErrLog h.msgType e], some e, s')
          | none => some ([TraceEvent.dispatch messageType bs], none, s')
      | none =>
          some ([TraceEvent.unknownTypeLog messageType bs.length,
                 TraceEvent.hexDumpOut bs], none, s')

/-- What the read loop does next after one iteration of its `default`
branch (tcp.go lines 130–154). -/
inductive IterNext where
  /-- Fall through to the next iteration and keep reading frames. -/
  | continueLoop (s : ConnStream)
  /-- `conn.closer <- struct{}{}; continue`: the close signal was sent;
  the next iteration's `select` takes the `closer` branch, runs cleanup
  and returns. -/
  | signalClose (s : ConnStream)
  /-- `return` directly from the goroutine, with no close signal and no
  cleanup. -/
  | exitLoop (s : ConnStream)
deriving DecidableEq, Repr

/-- One iteration of the read loop's `default` branch (tcp.go lines
130–154): read the 2-byte little-endian length header with
`binary.Read`, then call `handleConnection`; on an error from either,
send the close signal if it is a permanent `*net.OpError`, otherwise
log it and return.  `none` models a forever-blocking read. -/
def readLoopIter (hs : Handlers) (s : ConnStream) :
    Option (List TraceEvent × IterNext) :=
  match readFull s 2 with
  | none => none
  | some (Sum.inr e, s') =>
      if isPermanentOp e then some ([], IterNext.signalClose s')
      else some ([TraceEvent.readLenErrLog e], IterNext.exitLoop s')
  | some (Sum.inl lenBytes, s') =>
      let messageLength := le16 lenBytes
      match handleConnection hs s' messageLength with
      | none => none
      | some (evs, some e, s'') =>
          if isPermanentOp e then some (evs, IterNext.signalClose s'')
          else some (evs ++ [TraceEvent.readMsgErrLog e], IterNext.exitLoop s'')
      | some (evs, none, s'') => some (evs, IterNext.continueLoop s'')

/-- How a (single-task, no external close request) run of the read loop
goroutine ended. -/
inductive RunEnd where
  /-- The `closer` branch ran the cleanup block and returned. -/
  | closedClean (s : ConnStream)
  /-- The goroutine returned from an error log path, with no cleanup. -/
  | returnedNoCleanup (s : ConnStream)
  /-- A read blocked forever. -/
  | blocked
  /-- Out of fuel (the run was longer than the bound). -/
  | fuelOut (s : ConnStream)
deriving DecidableEq, Repr

/-- Run the read loop goroutine of `TCP.Listen` (tcp.go lines 113–156)
for at most `fuel` iterations, with no concurrent external close
request: each iteration's `select` finds the `closer` channel empty and
takes the `default` branch, except right after `signalClose`, where the
`closer` branch runs the cleanup block and returns. -/
def runReadLoop (hs : Handlers) : Nat → ConnStream → List TraceEvent × RunEnd
  | 0, s => ([], RunEnd.fuelOut s)
  | fuel + 1, s =>
      match readLoopIter hs s with
      | none => ([], RunEnd.blocked)
      | some (evs, IterNext.continueLoop s') =>
          let r := runReadLoop hs fuel s'
          (evs ++ r.1, r.2)
      | some (evs, IterNext.signalClose s') =>
          (evs ++ [TraceEvent.cleanupRan], RunEnd.closedClean s')
      | some (evs, IterNext.exitLoop s') =>
          (evs, RunEnd.returnedNoCleanup s')

/-- The handler invocations of a trace, in order: each `dispatch` event
as the pair (leading type byte, raw frame bytes). -/
def dispatches (tr : List TraceEvent) : List (Nat × List Nat) :=
  tr.filterMap fun ev =>
    match ev with
    | TraceEvent.dispatch t bs => some (t, bs)
    | _ => none

/-!
### The dual-trigger close protocol of one connection

`tcpConn.closer` is a buffered channel of capacity 1 (tcp.go line 110).
Two actors may send on it: the owning read-loop goroutine on a permanent
transport error (lines 135, 147), and any external actor through
`closeTCPConnection` (lines 213–217).  Only the owning goroutine ever
receives from it, in the `case <-conn.closer` branch (lines 115–128),
which runs the cleanup block and then returns.  The interleavings of
these actors are modelled as a transition system. -/

/-- Concurrency state of one connection's close protocol. -/
structure CloserSys where
  /-- Number of tokens buffered in the `closer` channel (capacity 1). -/
  closerBuf : Nat
  /-- The owning read-loop goroutine has returned. -/
  taskReturned : Bool
  /-- How many times the cleanup block of the `closer` branch has run. -/
  cleanupRuns : Nat
deriving DecidableEq, Repr

/-- Fresh connection: empty `closer` channel, read loop running, no
cleanup yet (tcp.go lines 108–111). -/
def CloserSys.init : CloserSys := ⟨0, false, 0⟩

/-- Interleaved steps of the two actors of the close protocol.  A send
on the capacity-1 `closer` channel is only enabled while the buffer is
empty (a sender on a full buffer blocks); the receive and the cleanup
block belong exclusively to the owning goroutine, which returns at the
end of that branch and never runs again. -/
inductive CloserStep : CloserSys → CloserSys → Prop
  /-- `closeTCPConnection` (an external actor) sends on `closer`. -/
  | remoteClose (s : CloserSys) (hbuf : s.closerBuf = 0) :
      CloserStep s ⟨1, s.taskReturned, s.cleanupRuns⟩
  /-- The read loop hits a permanent transport error and sends on
  `closer` (`conn.closer <- struct{}{}; continue`). -/
  | loopErrorClose (s : CloserSys) (hrun : s.taskReturned = false)
      (hbuf : s.closerBuf = 0) :
      CloserStep s ⟨1, false, s.cleanupRuns⟩
  /-- The read loop's `select` takes the `closer` branch: it consumes
  the token, runs the cleanup block once, and returns. -/
  | loopConsumeCloser (s : CloserSys) (hrun : s.taskReturned = false)
      (hbuf : 1 ≤ s.closerBuf) :
      CloserStep s ⟨s.closerBuf - 1, true, s.cleanupRuns + 1⟩
  /-- The read loop returns from a non-permanent-error log path
  (no close signal, no cleanup). -/
  | loopExitNoCleanup (s : CloserSys) (hrun : s.taskReturned = false) :
      CloserStep s ⟨s.closerBuf, true, s.cleanupRuns⟩

/-- States reachable from a fresh connection by any interleaving. -/
inductive CloserReachable : CloserSys → Prop
  | init : CloserReachable CloserSys.init
  | step (s s' : CloserSys) (hr : CloserReachable s) (hs : CloserStep s s') :
      CloserReachable s'

/-!
### The cleanup block (tcp.go lines 116–128)

In the `case <-conn.closer` branch the goroutine (1) looks the car up by
its TCP connection, (2) closes the transport with `conn.Close()`, and
(3) if a car was found, resets its `Connection` field to the zero value
`Connection{}` — and only that field — before returning. -/

/-- Ordered actions of the cleanup block. -/
inductive CleanupAction where
  /-- `car, _ := t.state.GetCarByTCPConn(conn)` -/
  | lookupCar
  /-- `conn.Close()` -/
  | closeTransport
  /-- `car.Connection = Connection{}` -/
  | clearSlotConnection
deriving DecidableEq, Repr

/-- The actions of the cleanup block in program order: the transport is
closed before the slot's connection is cleared (and the latter only when
the lookup found a car). -/
def cleanupActions (carFound : Bool) : List CleanupAction :=
  CleanupAction.lookupCar :: CleanupAction.closeTransport ::
    (if carFound then [CleanupAction.clearSlotConnection] else [])

/-- Modelled from the spec: the car slot record of the Shared Server
State (`state.go` is not part of the shown sources) — an id, the
assigned connection (absent when unoccupied; `Connection{}` is the
unassigned zero value), and timing/telemetry fields, abstracted to one
`Nat`. -/
structure Car where
  carID : Nat
  connection : Option Nat
  telemetry : Nat
deriving DecidableEq, Repr

/-- Effect of the cleanup block on the car found by
`GetCarByTCPConn`: exactly `car.Connection = Connection{}` — the id and
telemetry fields are not touched (tcp.go line 125). -/
def cleanupCar (car : Car) : Car :=
  { car with connection := none }

/-!
### `TCP.Close` and the accept loop (tcp.go lines 82–94 and 193–198)
-/

/-- State of the TCP server relevant to shutdown: the buffered `closed`
channel (capacity 1), the listener, and the `closer` buffers of the
already-open connections' read loops. -/
structure TCPServerState where
  /-- Tokens buffered in the `t.closed` channel (capacity 1). -/
  closedBuf : Nat
  /-- The `net.TCPListener` is open. -/
  listenerOpen : Bool
  /-- `closer` channel buffer of each open connection, by index. -/
  connClosers : List Nat
deriving DecidableEq, Repr

/-- `TCP.Close` (tcp.go lines 193–198): log, send on `t.closed`, close
the listener.  It touches no connection. -/
def tcpClose (t : TCPServerState) : TCPServerState :=
  { t with closedBuf := t.closedBuf + 1, listenerOpen := false }

/-- What the accept loop does upon an `AcceptTCP` error. -/
inductive AcceptAction where
  /-- `return` with no log: deliberate shutdown. -/
  | returnSilently
  /-- `t.logger.WithError(err).Error("couldn't accept tcp connection"); continue`. -/
  | logAndContinue (e : GoErr)
deriving DecidableEq, Repr

/-- The accept loop's reaction to an accept error (tcp.go lines 86–94):
`select` on `t.closed` — if a token is buffered it is consumed and the
loop returns silently; otherwise (`default`) the error is logged and the
loop keeps accepting. -/
def acceptLoopOnError (t : TCPServerState) (e : GoErr) :
    AcceptAction × TCPServerState :=
  if 1 ≤ t.closedBuf then
    (AcceptAction.returnSilently, { t with closedBuf := t.closedBuf - 1 })
  else
    (AcceptAction.logAndContinue e, t)

/-!
### `closeTCPConnectionWithError` (tcp.go lines 200–217)
-/

/-- Write side and close signal of one connection, for the explicit
close helpers: the frames written so far, whether the next `WriteTCP`
fails (and with which error), and the `closer` channel buffer. -/
structure WriteConnState where
  written : List (List Nat)
  writeResult : Option GoErr
  closerBuf : Nat
deriving DecidableEq, Repr

/-- Modelled from the spec: `Packet.WriteTCP` (`packet.go` is not part
of the shown sources) frames the packet bytes behind a 2-byte
little-endian length header covering the message-type byte and payload,
and writes the frame to the connection, returning the write error if
any. -/
def writeTCP (bytes : List Nat) (c : WriteConnState) :
    Option GoErr × WriteConnState :=
  match c.writeResult with
  | some e => (some e, c)
  | none => (none, { c with written := c.written ++ [le16enc bytes.length ++ bytes] })

/-- `closeTCPConnection` (tcp.go lines 213–217): if the connection is a
`*tcpConn`, send on its `closer` channel (capacity 1; the send is
modelled here in the non-full case used by the helpers — blocking on a
full buffer is covered by the `CloserStep` system). -/
def closeTCPConnection (c : WriteConnState) : WriteConnState :=
  { c with closerBuf := c.closerBuf + 1 }

/-- `closeTCPConnectionWithError` (tcp.go lines 200–211): build a packet
holding only the error message type, write it with `WriteTCP`; on a
write error return it at once (no close signal), otherwise fire the
close signal and return nil. -/
def closeTCPConnectionWithError (c : WriteConnState) (errorMessage : Nat) :
    Option GoErr × WriteConnState :=
  let p := [errorMessage]
  match writeTCP p c with
  | (some e, c') => (some e, c')
  | (none, c') => (none, closeTCPConnection c')

end AcServer

namespace Acsm

/-!
### The dependency resolver (`resolver.go`)

Each `resolve*` method is a memoizing constructor: it tests a field of
the `Resolver` for `nil`, returns the stored pointer if set, and
otherwise constructs the instance, stores it, and returns it.  Pointers
are modelled as instance ids minted from a counter, so pointer equality
is id equality and the counter counts constructor calls.  Only the
fields involved in the claims are carried. -/

/-- The fields of `Resolver` used by `resolvePenaltiesManager` and
`resolveBlockListManager`, plus mint counters standing for the number of
`NewPenaltiesManager` / `NewBlockListManager` calls.  A `none` field is
a nil pointer. -/
structure Resolver where
  penaltiesHandler : Option Nat
  penaltiesManager : Option Nat
  blockListManager : Option Nat
  pmConstructed : Nat
  blmConstructed : Nat
deriving DecidableEq, Repr

/-- A freshly built `Resolver` (`NewResolver` sets none of these
fields, so all pointers start nil). -/
def Resolver.fresh : Resolver := ⟨none, none, none, 0, 0⟩

/-- `Resolver.resolvePenaltiesManager` (resolver.go lines 317–325),
exactly as written: the memoization guard tests `r.penaltiesHandler`
(not `r.penaltiesManager`); when the guard passes it returns whatever
`r.penaltiesManager` holds, otherwise it calls `NewPenaltiesManager`
(minting instance id `pmConstructed`), stores and returns it. -/
def resolvePenaltiesManager (r : Resolver) : Option Nat × Resolver :=
  if r.penaltiesHandler ≠ none then
    (r.penaltiesManager, r)
  else
    let inst := r.pmConstructed
    (some inst,
     { r with penaltiesManager := some inst, pmConstructed := r.pmConstructed + 1 })

/-- `Resolver.resolveBlockListManager` (resolver.go lines 376–384), a
representative of the uniform memoization pattern of every other
`resolve*` method: the guard tests the very field being memoized. -/
def resolveBlockListManager (r : Resolver) : Option Nat × Resolver :=
  if r.blockListManager ≠ none then
    (r.blockListManager, r)
  else
    let inst := r.blmConstructed
    (some inst,
     { r with blockListManager := some inst, blmConstructed := r.blmConstructed + 1 })

end Acsm

namespace AcServer

/-! ### Concrete handler tables and frame encodings used by witnesses -/

/-- A handler that always succeeds. -/
def okHandler (t : Nat) : TCPMessageHandler :=
  ⟨t, fun _ => none⟩

/-- A handler that always returns a (non-`*net.OpError`) business error. -/
def errHandler (t : Nat) : TCPMessageHandler :=
  ⟨t, fun _ => some GoErr.other⟩

/-- A dispatcher with one succeeding handler, registered for type 5. -/
def demoHandlers : Handlers :=
  fun t => if t = 5 then some (okHandler 5) else none

/-- A dispatcher with one failing handler, registered for type 7. -/
def errHandlers : Handlers :=
  fun t => if t = 7 then some (errHandler 7) else none

/-- The wire encoding of one message (type byte plus payload) as sent by
a well-behaved peer and delivered whole: the 2-byte little-endian length
header followed by the message bytes. -/
def encodeMsg (m : List Nat) : ReadEvent :=
  ReadEvent.chunk (le16enc m.length ++ m)

/-- A whole stream of messages delivered frame by frame. -/
def encodeFrames (ms : List (List Nat)) : ConnStream :=
  ms.map encodeMsg

/-! ### Frame-level helper lemmas -/

lemma le16_le16enc (n : Nat) (h : n < 65536) : le16 (le16enc n) = n := by
  simp only [le16, le16enc, List.headD, List.tail]
  omega

lemma readFull_two_of_cons_cons (a b : Nat) (m : List Nat) (rest : ConnStream) :
    readFull (ReadEvent.chunk (a :: b :: m) :: rest) 2 =
      some (Sum.inl [a, b], pushBack m rest) := by
  have hlen : (a :: b :: m).length ≥ 1 + 1 := by
    simp [List.length_cons]
  simp [readFull, readFullLoop, hlen]

lemma handleConnection_full_message (hs : Handlers) (m : List Nat)
    (rest : ConnStream) (hm : m ≠ []) :
    handleConnection hs (ReadEvent.chunk m :: rest) m.length =
      match hs (m.headD 0) with
      | some h =>
          match h.onMessage m with
          | some e =>
              some ([TraceEvent.dispatch (m.headD 0) m,
                     TraceEvent.handlerErrLog h.msgType e], some e, rest)
          | none => some ([TraceEvent.dispatch (m.headD 0) m], none, rest)
      | none =>
          some ([TraceEvent.unknownTypeLog (m.headD 0) m.length,
                 TraceEvent.hexDumpOut m], none, rest) := by
  have h0 : m.length ≠ 0 := by simpa using hm
  simp [handleConnection, connRead, h0, List.take_length, List.drop_length, pushBack]

lemma readFull_encodeMsg (m : List Nat) (rest : ConnStream) (hm : m ≠ []) :
    readFull (encodeMsg m :: rest) 2 =
      some (Sum.inl (le16enc m.length), ReadEvent.chunk m :: rest) := by
  show readFull (ReadEvent.chunk (le16enc m.length ++ m) :: rest) 2 = _
  rw [le16enc, List.cons_append, List.cons_append, List.nil_append,
    readFull_two_of_cons_cons]
  simp [pushBack, hm, le16enc]

lemma readLoopIter_dispatch_ok (hs : Handlers) (m : List Nat) (rest : ConnStream)
    (h : TCPMessageHandler) (hm : m ≠ []) (hlen : m.length < 65536)
    (hh : hs (m.headD 0) = some h) (hres : h.onMessage m = none) :
    readLoopIter hs (encodeMsg m :: rest) =
      some ([TraceEvent.dispatch (m.headD 0) m], IterNext.continueLoop rest) := by
  simp only [readLoopIter, readFull_encodeMsg m rest hm, le16_le16enc m.length hlen,
    handleConnection_full_message hs m rest hm, hh, hres]

lemma readLoopIter_dispatch_err (hs : Handlers) (m : List Nat) (rest : ConnStream)
    (h : TCPMessageHandler) (e : GoErr) (hm : m ≠ []) (hlen : m.length < 65536)
    (hh : hs (m.headD 0) = some h) (hres : h.onMessage m = some e) :
    readLoopIter hs (encodeMsg m :: rest) =
      (if isPermanentOp e then
        some ([TraceEvent.dispatch (m.headD 0) m,
               TraceEvent.handlerErrLog h.msgType e], IterNext.signalClose rest)
      else
        some ([TraceEvent.dispatch (m.headD 0) m,
               TraceEvent.handlerErrLog h.msgType e,
               TraceEvent.readMsgErrLog e], IterNext.exitLoop rest)) := by
  simp only [readLoopIter, readFull_encodeMsg m rest hm, le16_le16enc m.length hlen,
    handleConnection_full_message hs m rest hm, hh, hres]
  cases isPermanentOp e <;> simp

lemma readLoopIter_unknown_type (hs : Handlers) (m : List Nat) (rest : ConnStream)
    (hm : m ≠ []) (hlen : m.length < 65536) (hh : hs (m.headD 0) = none) :
    readLoopIter hs (encodeMsg m :: rest) =
      some ([TraceEvent.unknownTypeLog (m.headD 0) m.length,
             TraceEvent.hexDumpOut m], IterNext.continueLoop rest) := by
  simp only [readLoopIter, readFull_encodeMsg m rest hm, le16_le16enc m.length hlen,
    handleConnection_full_message hs m rest hm, hh]

/-! ### Invariant of the close protocol -/

/-- Invariant of the close protocol: while the owning goroutine is still
running no cleanup has happened, and in any case the cleanup block has
run at most once. -/
def closerInv (s : CloserSys) : Prop :=
  (s.taskReturned = false → s.cleanupRuns = 0) ∧ s.cleanupRuns ≤ 1

lemma closerInv_step {s s' : CloserSys} (hinv : closerInv s)
    (hstep : CloserStep s s') : closerInv s' := by
  cases hstep with
  | remoteClose hbuf => exact hinv
  | loopErrorClose hrun hbuf => exact ⟨fun _ => hinv.1 hrun, hinv.2⟩
  | loopConsumeCloser hrun hbuf =>
      refine ⟨fun h => by simp at h, ?_⟩
      have := hinv.1 hrun
      simp only [CloserSys.cleanupRuns] at *
      omega
  | loopExitNoCleanup hrun => exact ⟨fun h => by simp at h, hinv.2⟩

lemma closerInv_reachable {s : CloserSys} (h : CloserReachable s) : closerInv s := by
  induction h with
  | init => exact ⟨fun _ => rfl, by decide⟩
  | step s s' hr hs ih => exact closerInv_step ih hs

/-! ### Claim theorems for the connection close protocol -/

/-- C1: For every connection, the cleanup block (car lookup, transport
close, slot-connection clear) executes at most once, under every
interleaving of the owning read loop and external `closeTCPConnection`
callers: the `closer` channel is consumed only by the owning goroutine,
which returns right after the single cleanup. -/
theorem tcp_connection_cleanup_at_most_once (s : CloserSys)
    (h : CloserReachable s) : s.cleanupRuns ≤ 1 :=
  (closerInv_reachable h).2

/-- Witness for C1: a state where an external close and the loop's
consumption both happened is reachable, and its cleanup count is at
most one. -/
theorem tcp_connection_cleanup_at_most_once_witness :
    CloserReachable ⟨0, true, 1⟩ ∧ (⟨0, true, 1⟩ : CloserSys).cleanupRuns ≤ 1 := by
  have h1 : CloserStep CloserSys.init ⟨1, false, 0⟩ :=
    CloserStep.remoteClose CloserSys.init rfl
  have h2 : CloserStep ⟨1, false, 0⟩ ⟨0, true, 1⟩ :=
    CloserStep.loopConsumeCloser ⟨1, false, 0⟩ rfl (by decide)
  have hr : CloserReachable ⟨0, true, 1⟩ :=
    CloserReachable.step _ _ (CloserReachable.step _ _ CloserReachable.init h1) h2
  exact ⟨hr, tcp_connection_cleanup_at_most_once _ hr⟩

/-- C2 (evaluating the code at the failing input): a frame declares
length 10 but the peer delivers only 3 bytes before resetting.  The
single `conn.Read(buf)` in `handleConnection` returns the 3 available
bytes with no error, and they are dispatched to the type-5 handler as a
complete message — the shortfall is NOT observed as a transport error
for that frame, contradicting the claimed exact-length read. -/
theorem short_payload_dispatched_as_complete_frame :
    runReadLoop demoHandlers 3
      [ReadEvent.chunk [10, 0], ReadEvent.chunk [5, 7, 9],
       ReadEvent.rfail (GoErr.opError false)] =
      ([TraceEvent.dispatch 5 [5, 7, 9], TraceEvent.cleanupRan],
       RunEnd.closedClean []) := by
  decide

/-- C3 counterexample: on a temporary `*net.OpError` while reading the
length header, the read loop does not retry — it logs the error and
returns at once, leaving a perfectly good frame undelivered and running
no cleanup. -/
theorem temporary_error_terminates_loop_cex :
    runReadLoop demoHandlers 3
      [ReadEvent.rfail (GoErr.opError true), ReadEvent.chunk [2, 0, 5, 1],
       ReadEvent.rfail (GoErr.opError false)] =
      ([TraceEvent.readLenErrLog (GoErr.opError true)],
       RunEnd.returnedNoCleanup
         [ReadEvent.chunk [2, 0, 5, 1], ReadEvent.rfail (GoErr.opError false)]) := by
  decide

/-- C3 as amended: for every transport read error, on the length header
or on the payload, only a permanent `*net.OpError` triggers the close
signal; every other error (temporary `*net.OpError`, or any
non-`*net.OpError` error) is logged and terminates the read loop
immediately, with no close signal and no retry. -/
theorem read_error_classification (hs : Handlers) (e : GoErr) (rest : ConnStream) :
    (isPermanentOp e = true →
      readLoopIter hs (ReadEvent.rfail e :: rest) =
        some ([], IterNext.signalClose rest) ∧
      readLoopIter hs (ReadEvent.chunk [1, 0] :: ReadEvent.rfail e :: rest) =
        some ([], IterNext.signalClose rest)) ∧
    (isPermanentOp e = false →
      readLoopIter hs (ReadEvent.rfail e :: rest) =
        some ([TraceEvent.readLenErrLog e], IterNext.exitLoop rest) ∧
      readLoopIter hs (ReadEvent.chunk [1, 0] :: ReadEvent.rfail e :: rest) =
        some ([TraceEvent.readMsgErrLog e], IterNext.exitLoop rest)) := by
  constructor <;> intro hperm <;>
    cases e with
    | opError temp =>
        cases temp with
        | false => first | exact ⟨rfl, rfl⟩ | simp [isPermanentOp] at hperm
        | true => first | exact ⟨rfl, rfl⟩ | simp [isPermanentOp] at hperm
    | other => first | exact ⟨rfl, rfl⟩ | simp [isPermanentOp] at hperm

/-- Witness for C3's amended theorem: a permanent `*net.OpError`
(connection reset: not temporary) on the length read signals close, and
a non-OpError payload-read error exits the loop. -/
theorem read_error_classification_witness :
    readLoopIter demoHandlers [ReadEvent.rfail (GoErr.opError false)] =
      some ([], IterNext.signalClose []) ∧
    readLoopIter demoHandlers
        [ReadEvent.chunk [1, 0], ReadEvent.rfail GoErr.other] =
      some ([TraceEvent.readMsgErrLog GoErr.other], IterNext.exitLoop []) :=
  ⟨((read_error_classification demoHandlers (GoErr.opError false) []).1 rfl).1,
   ((read_error_classification demoHandlers GoErr.other []).2 rfl).2⟩

/-- C4 counterexample: the type-7 handler returns a business error on
the first frame; the error is logged with the handler's declared type,
but the read loop then terminates — the identical second frame is never
processed, so a handler error does abort the loop. -/
theorem handler_error_aborts_read_loop_cex :
    runReadLoop errHandlers 3
      [ReadEvent.chunk [1, 0, 7], ReadEvent.chunk [1, 0, 7],
       ReadEvent.rfail (GoErr.opError false)] =
      ([TraceEvent.dispatch 7 [7], TraceEvent.handlerErrLog 7 GoErr.other,
        TraceEvent.readMsgErrLog GoErr.other],
       RunEnd.returnedNoCleanup
         [ReadEvent.chunk [1, 0, 7], ReadEvent.rfail (GoErr.opError false)]) := by
  decide

/-- C4 as amended: when a dispatched handler's `OnMessage` returns an
error, the error is logged together with the handler's declared message
type — but it is also returned to the read loop, which then terminates:
it logs the error again and returns if the error is not a permanent
`*net.OpError`, and signals close if it is.  The loop never continues
past a handler error. -/
theorem handler_error_logged_then_loop_aborts (hs : Handlers) (m : List Nat)
    (rest : ConnStream) (h : TCPMessageHandler) (e : GoErr)
    (hm : m ≠ []) (hlen : m.length < 65536)
    (hh : hs (m.headD 0) = some h) (hres : h.onMessage m = some e) :
    (isPermanentOp e = false →
      readLoopIter hs (encodeMsg m :: rest) =
        some ([TraceEvent.dispatch (m.headD 0) m,
               TraceEvent.handlerErrLog h.msgType e,
               TraceEvent.readMsgErrLog e], IterNext.exitLoop rest)) ∧
    (isPermanentOp e = true →
      readLoopIter hs (encodeMsg m :: rest) =
        some ([TraceEvent.dispatch (m.headD 0) m,
               TraceEvent.handlerErrLog h.msgType e], IterNext.signalClose rest)) := by
  rw [readLoopIter_dispatch_err hs m rest h e hm hlen hh hres]
  constructor <;> intro hperm <;> simp [hperm]

/-- Witness for C4's amended theorem: the failing type-7 handler on a
one-byte frame. -/
theorem handler_error_logged_then_loop_aborts_witness :
    readLoopIter errHandlers [encodeMsg [7]] =
      some ([TraceEvent.dispatch 7 [7], TraceEvent.handlerErrLog 7 GoErr.other,
             TraceEvent.readMsgErrLog GoErr.other], IterNext.exitLoop []) :=
  (handler_error_logged_then_loop_aborts errHandlers [7] [] (errHandler 7)
      GoErr.other (by decide) (by decide) rfl rfl).1 rfl

/-- C5 counterexample: for a car slot with id 3, an assigned connection
and nonzero telemetry, the cleanup block closes the transport BEFORE
touching the slot, and afterwards the slot still reports id 3 and
telemetry 42 — only the assigned connection is reset, not the whole
slot, and the order is transport-close first, slot-clear second. -/
theorem cleanup_order_and_fields_cex :
    cleanupActions true =
      [CleanupAction.lookupCar, CleanupAction.closeTransport,
       CleanupAction.clearSlotConnection] ∧
    cleanupCar ⟨3, some 1, 42⟩ = ⟨3, none, 42⟩ ∧
    (cleanupCar ⟨3, some 1, 42⟩).carID ≠ 0 ∧
    (cleanupCar ⟨3, some 1, 42⟩).telemetry ≠ 0 := by
  decide

/-- C5 as amended: when a connection's cleanup runs, it looks the car up
by its connection, closes the transport first, and then clears only the
slot's assigned connection back to the zero value; the slot's id and
telemetry fields are left unchanged (and nothing is cleared when no car
occupies the connection). -/
theorem cleanup_closes_then_clears_connection_only (car : Car) :
    (cleanupCar car).connection = none ∧
    (cleanupCar car).carID = car.carID ∧
    (cleanupCar car).telemetry = car.telemetry ∧
    cleanupActions true =
      [CleanupAction.lookupCar, CleanupAction.closeTransport,
       CleanupAction.clearSlotConnection] ∧
    cleanupActions false = [CleanupAction.lookupCar, CleanupAction.closeTransport] :=
  ⟨rfl, rfl, rfl, rfl, rfl⟩

/-- C6: a frame whose leading type byte has no registered handler is
logged with its type and length together with a hex dump of the raw
bytes read, no handler is invoked, the frame is dropped (no error is
propagated), and the read loop simply continues with the rest of the
stream — an unknown message type is never fatal. -/
theorem unknown_message_type_nonfatal (hs : Handlers) (m : List Nat)
    (rest : ConnStream) (hm : m ≠ []) (hlen : m.length < 65536)
    (hh : hs (m.headD 0) = none) :
    readLoopIter hs (encodeMsg m :: rest) =
      some ([TraceEvent.unknownTypeLog (m.headD 0) m.length,
             TraceEvent.hexDumpOut m], IterNext.continueLoop rest) ∧
    dispatches [TraceEvent.unknownTypeLog (m.headD 0) m.length,
                TraceEvent.hexDumpOut m] = [] :=
  ⟨readLoopIter_unknown_type hs m rest hm hlen hh, rfl⟩

/-- Witness for C6: a type-9 frame has no handler in `demoHandlers`;
the loop logs, hex dumps the raw bytes, and continues. -/
theorem unknown_message_type_nonfatal_witness :
    readLoopIter demoHandlers [encodeMsg [9, 1], encodeMsg [5]] =
      some ([TraceEvent.unknownTypeLog 9 2, TraceEvent.hexDumpOut [9, 1]],
            IterNext.continueLoop [encodeMsg [5]]) ∧
    dispatches [TraceEvent.unknownTypeLog 9 2, TraceEvent.hexDumpOut [9, 1]] = [] :=
  unknown_message_type_nonfatal demoHandlers [9, 1] [encodeMsg [5]]
    (by decide) (by decide) rfl

/-- A message stream is well-handled when every message is nonempty,
fits a 16-bit length, and has a registered handler that succeeds. -/
def wellHandled (hs : Handlers) (ms : List (List Nat)) : Prop :=
  ∀ m ∈ ms, m ≠ [] ∧ m.length < 65536 ∧
    ∃ h, hs (m.headD 0) = some h ∧ h.onMessage m = none

lemma runReadLoop_succ_continue (hs : Handlers) (fuel : Nat) (s : ConnStream)
    (evs : List TraceEvent) (s' : ConnStream)
    (hiter : readLoopIter hs s = some (evs, IterNext.continueLoop s')) :
    runReadLoop hs (fuel + 1) s =
      (evs ++ (runReadLoop hs fuel s').1, (runReadLoop hs fuel s').2) := by
  simp only [runReadLoop, hiter]

lemma runReadLoop_encodeFrames (hs : Handlers) (ms : List (List Nat))
    (hws : wellHandled hs ms) :
    runReadLoop hs (ms.length + 1) (encodeFrames ms ++ [ReadEvent.rfail GoErr.other]) =
      (ms.map (fun m => TraceEvent.dispatch (m.headD 0) m) ++
         [TraceEvent.readLenErrLog GoErr.other],
       RunEnd.returnedNoCleanup []) := by
  induction ms with
  | nil => rfl
  | cons m ms ih =>
      obtain ⟨hm, hlen, h, hh, hres⟩ := hws m (List.mem_cons_self m ms)
      have hiter := readLoopIter_dispatch_ok hs m
        (encodeFrames ms ++ [ReadEvent.rfail GoErr.other]) h hm hlen hh hres
      have htail := ih (fun m' hm' => hws m' (List.mem_cons_of_mem m hm'))
      have hstream : encodeFrames (m :: ms) ++ [ReadEvent.rfail GoErr.other] =
          encodeMsg m :: (encodeFrames ms ++ [ReadEvent.rfail GoErr.other]) := rfl
      have hfuel : (m :: ms).length + 1 = (ms.length + 1) + 1 := rfl
      rw [hstream, hfuel,
        runReadLoop_succ_continue hs (ms.length + 1) _ _ _ hiter, htail]
      simp

/-- Handler invocations distribute over trace concatenation. -/
lemma dispatches_append (a b : List TraceEvent) :
    dispatches (a ++ b) = dispatches a ++ dispatches b :=
  List.filterMap_append a b _

lemma dispatches_map_dispatch (ms : List (List Nat)) :
    dispatches (ms.map (fun m => TraceEvent.dispatch (m.headD 0) m)) =
      ms.map (fun m => (m.headD 0, m)) := by
  induction ms with
  | nil => rfl
  | cons m ms ih =>
      simp only [List.map_cons, dispatches, List.filterMap_cons] at ih ⊢
      rw [ih]

/-- C8: messages sent by one connection are dispatched to their handlers
strictly in arrival order — the read loop is one sequential task, so a
stream delivering messages `ms` frame by frame produces exactly the
handler invocations `ms`, in that order. -/
theorem messages_dispatched_in_order (hs : Handlers) (ms : List (List Nat))
    (hws : wellHandled hs ms) :
    dispatches (runReadLoop hs (ms.length + 1)
        (encodeFrames ms ++ [ReadEvent.rfail GoErr.other])).1 =
      ms.map (fun m => (m.headD 0, m)) := by
  rw [runReadLoop_encodeFrames hs ms hws, dispatches_append,
    dispatches_map_dispatch]
  simp [dispatches]

/-- Witness for C8: the three messages S1 = `[5]`, S2 = `[5,2]`,
S3 = `[5,9]` are dispatched in exactly that order. -/
theorem messages_dispatched_in_order_witness :
    dispatches (runReadLoop demoHandlers 4
        (encodeFrames [[5], [5, 2], [5, 9]] ++ [ReadEvent.rfail GoErr.other])).1 =
      [(5, [5]), (5, [5, 2]), (5, [5, 9])] :=
  messages_dispatched_in_order demoHandlers [[5], [5, 2], [5, 9]] (by
    intro m hm
    simp only [List.mem_cons, List.not_mem_nil, or_false] at hm
    rcases hm with rfl | rfl | rfl <;>
      exact ⟨by decide, by decide, okHandler 5, rfl, rfl⟩)

/-- C7: `Close` sends the shutdown token and closes the listener,
without touching any open connection's read loop; the accept loop, on
its next accept failure, sees the token and returns silently, whereas an
accept failure without the token is logged and the loop keeps accepting
with its state unchanged. -/
theorem close_stops_accepting_preserves_connections (t : TCPServerState)
    (e : GoErr) (hbuf : t.closedBuf = 0) :
    (tcpClose t).listenerOpen = false ∧
    (tcpClose t).connClosers = t.connClosers ∧
    (acceptLoopOnError (tcpClose t) e).1 = AcceptAction.returnSilently ∧
    (acceptLoopOnError t e).1 = AcceptAction.logAndContinue e ∧
    (acceptLoopOnError t e).2 = t := by
  refine ⟨rfl, rfl, ?_, ?_, ?_⟩ <;>
    simp [acceptLoopOnError, tcpClose, hbuf]

/-- Witness for C7: a server with two open connections. -/
theorem close_stops_accepting_preserves_connections_witness :
    (tcpClose ⟨0, true, [0, 0]⟩).listenerOpen = false ∧
    (tcpClose ⟨0, true, [0, 0]⟩).connClosers = [0, 0] ∧
    (acceptLoopOnError (tcpClose ⟨0, true, [0, 0]⟩) GoErr.other).1 =
      AcceptAction.returnSilently ∧
    (acceptLoopOnError ⟨0, true, [0, 0]⟩ GoErr.other).1 =
      AcceptAction.logAndContinue GoErr.other ∧
    (acceptLoopOnError ⟨0, true, [0, 0]⟩ GoErr.other).2 = ⟨0, true, [0, 0]⟩ :=
  close_stops_accepting_preserves_connections ⟨0, true, [0, 0]⟩ GoErr.other rfl

/-- C10: `closeTCPConnectionWithError` first writes a frame holding only
the error message type (behind its 2-byte length header) and then fires
the close signal; if the write fails it returns the write error at once,
leaving the close signal unfired — the connection's cleanup is not
triggered and the connection stays open. -/
theorem closeTCPConnectionWithError_write_failure_no_signal
    (c : WriteConnState) (errorMessage : Nat) :
    (∀ e, c.writeResult = some e →
      closeTCPConnectionWithError c errorMessage = (some e, c)) ∧
    (c.writeResult = none →
      closeTCPConnectionWithError c errorMessage =
        (none, ({ c with
                  written := c.written ++ [[1, 0, errorMessage]]
                  closerBuf := c.closerBuf + 1 } : WriteConnState))) := by
  constructor
  · intro e he
    simp [closeTCPConnectionWithError, writeTCP, he]
  · intro hnone
    simp [closeTCPConnectionWithError, writeTCP, hnone, closeTCPConnection,
      le16enc]

/-- Witness for C10: on a connection whose write fails, the error is
returned and the `closer` channel stays empty; on one whose write
succeeds, the one-byte frame `[20]` (framed as `[1, 0, 20]`) is written
and the close signal fires. -/
theorem closeTCPConnectionWithError_write_failure_no_signal_witness :
    closeTCPConnectionWithError ⟨[], some GoErr.other, 0⟩ 20 =
      (some GoErr.other, ⟨[], some GoErr.other, 0⟩) ∧
    closeTCPConnectionWithError ⟨[], none, 0⟩ 20 =
      (none, ⟨[[1, 0, 20]], none, 1⟩) := by
  refine ⟨?_, ?_⟩
  · exact (closeTCPConnectionWithError_write_failure_no_signal
      ⟨[], some GoErr.other, 0⟩ 20).1 GoErr.other rfl
  · have h := (closeTCPConnectionWithError_write_failure_no_signal
      ⟨[], none, 0⟩ 20).2 rfl
    simpa using h

end AcServer

namespace Acsm

/-- C9 (evaluating the code at the failing input): on a fresh `Resolver`,
two successive calls of `resolvePenaltiesManager` construct two distinct
`PenaltiesManager` instances — its memoization guard tests the
`penaltiesHandler` field instead of `penaltiesManager`, unlike the
uniform pattern of every other resolve method, represented here by
`resolveBlockListManager`, which is idempotent. -/
theorem resolvePenaltiesManager_constructs_second_instance :
    (resolvePenaltiesManager Resolver.fresh).1 = some 0 ∧
    (resolvePenaltiesManager (resolvePenaltiesManager Resolver.fresh).2).1 = some 1 ∧
    (resolvePenaltiesManager (resolvePenaltiesManager Resolver.fresh).2).2.pmConstructed = 2 ∧
    (resolveBlockListManager (resolveBlockListManager Resolver.fresh).2).1 =
      (resolveBlockListManager Resolver.fresh).1 ∧
    (resolveBlockListManager (resolveBlockListManager Resolver.fresh).2).2.blmConstructed = 1 := by
  decide

end Acsm
